import Mathlib

/-!
Verification development for liberasurecode's fragment-buffer and header
subsystem (`src/erasurecode_helpers.c`).

The C functions are shallowly embedded as Lean definitions.  Pointers are
modelled as mathematical integers (`Int`), with `0` playing the role of
`NULL`.  The heap is modelled at fragment-header granularity: `Mem.load q`
is the `fragment_header_t`-typed view of the bytes starting at address `q`,
and `Mem.live` / `Mem.allocSize` record which addresses are the bases of
live allocations and how many bytes each one spans.  Views at distinct
addresses are independent cells; this is faithful for the code at hand
because the only reads it performs on a given buffer are at the block base
and at `base ± sizeof(fragment_header_t)`, and the header fields it writes
at one address never overlap the fields it reads at the other.
-/

/-- Modelled from the spec: the fragment header record declared in
`erasurecode_helpers.h` (the header file is not part of `src/`).  Spec §3:
fields `magic` (fixed sentinel), `idx`, `size`, `orig_data_size`,
`chksum`, all natural machine-word-sized integers, in this declaration
order. -/
structure fragment_header_t where
  magic : Int
  idx : Int
  size : Int
  orig_data_size : Int
  chksum : Int
deriving DecidableEq

/-- Modelled from the spec: the fixed magic sentinel constant
`LIBERASURECODE_FRAG_HEADER_MAGIC` from `erasurecode_helpers.h`.  No claim
depends on the exact value, only on it being one fixed constant. -/
def LIBERASURECODE_FRAG_HEADER_MAGIC : Int := 0xb0c5ecc

/-- Modelled from the spec: `sizeof(fragment_header_t)` — the byte size of
the fixed-layout header (five machine integers).  No claim depends on the
exact value, only on it being one fixed positive constant. -/
def sizeof_fragment_header_t : Int := 20

/-- The all-zero header view (what `memset(buf, 0, size)` leaves behind). -/
def zero_header : fragment_header_t :=
  { magic := 0, idx := 0, size := 0, orig_data_size := 0, chksum := 0 }

/-- The heap.  `load q` is the header-typed view of memory at address `q`;
`live q` says whether `q` is the base of a live allocation; `allocSize q`
is the byte size of the allocation based at `q` (meaningful when live). -/
structure Mem where
  load : Int → fragment_header_t
  live : Int → Bool
  allocSize : Int → Int

/-- Write the header view at address `p` (a field assignment through a
`fragment_header_t *` cast in the C code). -/
def Mem.store (m : Mem) (p : Int) (h : fragment_header_t) : Mem :=
  { m with load := fun q => if q = p then h else m.load q }

/-- Effect of `memset(p, 0, size)`: every header view lying entirely
inside the byte range `[p, p + size)` becomes the all-zero header. -/
def Mem.memset_zero (m : Mem) (p size : Int) : Mem :=
  { m with
    load := fun q =>
      if p ≤ q ∧ q + sizeof_fragment_header_t ≤ p + size then zero_header
      else m.load q }

/-- Effect of `free(p)`: the allocation based at `p` is no longer live. -/
def Mem.free (m : Mem) (p : Int) : Mem :=
  { m with live := fun q => if q = p then false else m.live q }

/-- Outcome of one call to the external allocator `posix_memalign`.
Per POSIX, `ret` is `0` on success and a positive error number
(e.g. `ENOMEM = 12`) on failure — never negative.  `ptr` is the address of
the fresh block when `ret = 0`; when `ret ≠ 0` the output pointer is left
indeterminate, so `ptr` is then an arbitrary garbage value. -/
structure MemalignResult where
  ret : Int
  ptr : Int

/-- Heap effect of `posix_memalign`: on success (`ret = 0`) a fresh live
block of `size` bytes appears at `ptr`; on failure the heap is unchanged. -/
def posix_memalign_effect (m : Mem) (r : MemalignResult) (size : Int) : Mem :=
  if r.ret = 0 then
    { m with
      live := fun q => if q = r.ptr then true else m.live q,
      allocSize := fun q => if q = r.ptr then size else m.allocSize q }
  else m

/-- Embedding of `get_aligned_buffer16` (erasurecode_helpers.c:43-58).
The C code tests `posix_memalign(&buf, 16, size) < 0` and returns `NULL`
in that case; since `posix_memalign` never returns a negative value, that
branch is dead, and on failure the code goes on to `memset` and return the
indeterminate pointer.  The embedding keeps the dead test as written. -/
def get_aligned_buffer16 (m : Mem) (r : MemalignResult) (size : Int) :
    Int × Mem :=
  let m1 := posix_memalign_effect m r size
  if r.ret < 0 then (0, m1)
  else (r.ptr, m1.memset_zero r.ptr size)

/-- Embedding of `alloc_fragment_buffer` (erasurecode_helpers.c:105-119):
grow `size` by the header size, allocate via `get_aligned_buffer16`, and
if the result is non-NULL stamp the magic sentinel into the header. -/
def alloc_fragment_buffer (m : Mem) (r : MemalignResult) (size : Int) :
    Int × Mem :=
  let size2 := size + sizeof_fragment_header_t
  let out := get_aligned_buffer16 m r size2
  if out.1 = 0 then out
  else
    (out.1,
     out.2.store out.1
       { out.2.load out.1 with magic := LIBERASURECODE_FRAG_HEADER_MAGIC })

/-- Embedding of `free_fragment_buffer` (erasurecode_helpers.c:121-139):
a NULL argument fails with -1; otherwise the code moves `buf` DOWN by
`sizeof(fragment_header_t)`, checks the sentinel there, fails with -1
(freeing nothing) on a mismatch, and otherwise frees that address and
returns 0. -/
def free_fragment_buffer (m : Mem) (buf : Int) : Int × Mem :=
  if buf = 0 then (-1, m)
  else
    let b := buf - sizeof_fragment_header_t
    if (m.load b).magic ≠ LIBERASURECODE_FRAG_HEADER_MAGIC then (-1, m)
    else (0, m.free b)

/-- Embedding of `get_fragment_size` (erasurecode_helpers.c:150-159):
-1 on NULL, otherwise the header's `size` field plus the header size, with
no sentinel check.  (The C return type is `uint64_t`, so the literal `-1`
is delivered to callers as its two's-complement encoding; the embedding
keeps the pre-conversion mathematical value.) -/
def get_fragment_size (m : Mem) (buf : Int) : Int :=
  if buf = 0 then -1
  else (m.load buf).size + sizeof_fragment_header_t

/-- Modelled from the spec: the backend identifiers of the dispatch layer
(`erasurecode_backend.h` is not part of `src/`); only the Cauchy
Reed-Solomon identifier is distinguished by the code under `src/`. -/
inductive ec_backend_id_t where
  | EC_BACKEND_NULL
  | EC_BACKEND_JERASURE_RS_VAND
  | EC_BACKEND_JERASURE_RS_CAUCHY
  | EC_BACKEND_FLAT_XOR_HD
deriving DecidableEq

/-- Modelled from the spec: the slice of an `ec_backend_t` instance read
by `get_aligned_data_size` — the coding arguments `k`, `m`, `w` and the
backend identifier `common.id`. -/
structure ec_backend_t where
  k : Int
  m : Int
  w : Int
  id : ec_backend_id_t

/-- Modelled from the spec: `sizeof(long)` on the host (LP64): 8 bytes. -/
def sizeof_long : Int := 8

/-- The `alignment_multiple` computed by `get_aligned_data_size`
(erasurecode_helpers.c:182-186): `k * w * (sizeof(long) * 128)` for the
Cauchy Reed-Solomon backend, `k * word_size` with `word_size = w / 8`
(truncating C division) otherwise. -/
def alignment_multiple (inst : ec_backend_t) : Int :=
  if inst.id = ec_backend_id_t.EC_BACKEND_JERASURE_RS_CAUCHY then
    inst.k * inst.w * (sizeof_long * 128)
  else
    inst.k * (inst.w / 8)

/-- Embedding of `get_aligned_data_size` (erasurecode_helpers.c:169-192).
The C computes `(int) ceill((double) data_len / alignment_multiple) *
alignment_multiple`; for `0 ≤ data_len` and `0 < alignment_multiple` in
`int` range the double arithmetic is exact enough that this equals the
mathematical ceiling, embedded here as `(data_len + alignment_multiple -
1) / alignment_multiple` (Euclidean division).  For `alignment_multiple ≤
0` the C expression has no defined value (a division by zero routed
through floating point and an `(int)` cast of the resulting NaN); the
embedding is total and the theorems below do not rely on its value
there. -/
def get_aligned_data_size (inst : ec_backend_t) (data_len : Int) : Int :=
  let am := alignment_multiple inst
  (data_len + am - 1) / am * am

/-- Embedding of `get_data_ptr_from_fragment` (erasurecode_helpers.c:196-201):
pure offset arithmetic, no validation, no NULL check. -/
def get_data_ptr_from_fragment (buf : Int) : Int :=
  buf + sizeof_fragment_header_t

/-- Embedding of `get_data_ptr_array_from_fragments`
(erasurecode_helpers.c:203-217): positionally convert each non-NULL
fragment pointer to its data pointer, keep NULL entries NULL, and return
the number of non-NULL entries.  The C writes into a caller array at the
same indices it reads; the embedding returns the written array. -/
def get_data_ptr_array_from_fragments : List Int → List Int × Int
  | [] => ([], 0)
  | f :: fs =>
    let r := get_data_ptr_array_from_fragments fs
    if f = 0 then (0 :: r.1, r.2)
    else (get_data_ptr_from_fragment f :: r.1, r.2 + 1)

/-- Embedding of `get_fragment_ptr_from_data_novalidate`
(erasurecode_helpers.c:219-224): pure reverse offset arithmetic. -/
def get_fragment_ptr_from_data_novalidate (buf : Int) : Int :=
  buf - sizeof_fragment_header_t

/-- Embedding of `get_fragment_ptr_from_data` (erasurecode_helpers.c:226-240):
move down by the header size, check the sentinel there, return NULL on a
mismatch and the fragment pointer otherwise. -/
def get_fragment_ptr_from_data (m : Mem) (buf : Int) : Int :=
  let b := buf - sizeof_fragment_header_t
  if (m.load b).magic ≠ LIBERASURECODE_FRAG_HEADER_MAGIC then 0 else b

/-- Embedding of `set_fragment_idx` (erasurecode_helpers.c:244-257). -/
def set_fragment_idx (m : Mem) (buf : Int) (idx : Int) : Int × Mem :=
  if (m.load buf).magic ≠ LIBERASURECODE_FRAG_HEADER_MAGIC then (-1, m)
  else (0, m.store buf { m.load buf with idx := idx })

/-- Embedding of `get_fragment_idx` (erasurecode_helpers.c:259-270). -/
def get_fragment_idx (m : Mem) (buf : Int) : Int :=
  if (m.load buf).magic ≠ LIBERASURECODE_FRAG_HEADER_MAGIC then -1
  else (m.load buf).idx

/-- Embedding of `set_fragment_payload_size` (erasurecode_helpers.c:272-285). -/
def set_fragment_payload_size (m : Mem) (buf : Int) (size : Int) : Int × Mem :=
  if (m.load buf).magic ≠ LIBERASURECODE_FRAG_HEADER_MAGIC then (-1, m)
  else (0, m.store buf { m.load buf with size := size })

/-- Embedding of `get_fragment_payload_size` (erasurecode_helpers.c:287-298). -/
def get_fragment_payload_size (m : Mem) (buf : Int) : Int :=
  if (m.load buf).magic ≠ LIBERASURECODE_FRAG_HEADER_MAGIC then -1
  else (m.load buf).size

/-- Embedding of `set_orig_data_size` (erasurecode_helpers.c:300-313). -/
def set_orig_data_size (m : Mem) (buf : Int) (orig_data_size : Int) :
    Int × Mem :=
  if (m.load buf).magic ≠ LIBERASURECODE_FRAG_HEADER_MAGIC then (-1, m)
  else (0, m.store buf { m.load buf with orig_data_size := orig_data_size })

/-- Embedding of `get_orig_data_size` (erasurecode_helpers.c:315-326). -/
def get_orig_data_size (m : Mem) (buf : Int) : Int :=
  if (m.load buf).magic ≠ LIBERASURECODE_FRAG_HEADER_MAGIC then -1
  else (m.load buf).orig_data_size

/-- Embedding of `validate_fragment` (erasurecode_helpers.c:330-340). -/
def validate_fragment (m : Mem) (buf : Int) : Int :=
  if (m.load buf).magic ≠ LIBERASURECODE_FRAG_HEADER_MAGIC then -1 else 0

/-- Embedding of `set_chksum` (erasurecode_helpers.c:344-357). -/
def set_chksum (m : Mem) (buf : Int) (chksum : Int) : Int × Mem :=
  if (m.load buf).magic ≠ LIBERASURECODE_FRAG_HEADER_MAGIC then (-1, m)
  else (0, m.store buf { m.load buf with chksum := chksum })

/-- Embedding of `get_chksum` (erasurecode_helpers.c:359-370). -/
def get_chksum (m : Mem) (buf : Int) : Int :=
  if (m.load buf).magic ≠ LIBERASURECODE_FRAG_HEADER_MAGIC then -1
  else (m.load buf).chksum

/-- A concrete initial heap: every header view reads as zeroes, nothing is
live.  Used by the concrete counterexamples and witnesses below. -/
def m_init : Mem :=
  { load := fun _ => zero_header, live := fun _ => false,
    allocSize := fun _ => 0 }

/-- A concrete heap holding one valid header at address 100: every other
view reads as zeroes. -/
def m_valid : Mem :=
  m_init.store 100 { zero_header with magic := LIBERASURECODE_FRAG_HEADER_MAGIC }

/-- C9: destroying a NULL fragment pointer fails with -1 and performs no
operation at all — the heap is returned unchanged, whatever it holds, so
no sentinel validation is attempted and nothing is freed. -/
theorem free_fragment_buffer_null (m : Mem) :
    free_fragment_buffer m 0 = (-1, m) := rfl

/-- C6: `get_fragment_size` returns -1 on a NULL pointer, and on any
non-NULL pointer returns the header's `size` field plus the header size.
The heap `m` is arbitrary — in particular its sentinel may hold anything —
which shows the function performs no sentinel check. -/
theorem get_fragment_size_null_and_value (m : Mem) (buf : Int) :
    get_fragment_size m 0 = -1 ∧
    (buf ≠ 0 →
      get_fragment_size m buf = (m.load buf).size + sizeof_fragment_header_t) := by
  refine ⟨rfl, fun h => ?_⟩
  simp [get_fragment_size, h]

/-- Witness for C6 at the concrete heap `m_init` and pointer 100. -/
theorem get_fragment_size_null_and_value_inst :
    get_fragment_size m_init 0 = -1 ∧
    get_fragment_size m_init 100 =
      (m_init.load 100).size + sizeof_fragment_header_t :=
  ⟨(get_fragment_size_null_and_value m_init 100).1,
   (get_fragment_size_null_and_value m_init 100).2 (by decide)⟩

/-- C7: for a buffer with a valid sentinel at `p`, converting its data
pointer back through the validating `get_fragment_ptr_from_data` and then
forward through `get_data_ptr_from_fragment` is the identity on the data
pointer; and the non-validating `get_fragment_ptr_from_data_novalidate`
is the exact two-sided inverse offset of `get_data_ptr_from_fragment` on
every pointer `q`. -/
theorem fragment_data_ptr_roundtrip (m : Mem) (p q : Int)
    (hm : (m.load p).magic = LIBERASURECODE_FRAG_HEADER_MAGIC) :
    get_data_ptr_from_fragment
        (get_fragment_ptr_from_data m (get_data_ptr_from_fragment p)) =
      get_data_ptr_from_fragment p ∧
    get_fragment_ptr_from_data_novalidate (get_data_ptr_from_fragment q) = q ∧
    get_data_ptr_from_fragment (get_fragment_ptr_from_data_novalidate q) = q := by
  refine ⟨?_, ?_, ?_⟩ <;>
    simp [get_data_ptr_from_fragment, get_fragment_ptr_from_data,
      get_fragment_ptr_from_data_novalidate, add_sub_cancel_right,
      sub_add_cancel, hm]

/-- Witness for C7 at the concrete heap `m_valid` (valid sentinel at 100)
and the unrelated pointer 12345. -/
theorem fragment_data_ptr_roundtrip_inst :
    get_data_ptr_from_fragment
        (get_fragment_ptr_from_data m_valid (get_data_ptr_from_fragment 100)) =
      get_data_ptr_from_fragment 100 ∧
    get_fragment_ptr_from_data_novalidate (get_data_ptr_from_fragment 12345) =
      12345 ∧
    get_data_ptr_from_fragment (get_fragment_ptr_from_data_novalidate 12345) =
      12345 :=
  fragment_data_ptr_roundtrip m_valid 100 12345 (by decide)

/-- C4: on a buffer whose sentinel is valid, each of the four setters
returns 0 and the matching getter, run on the updated heap, returns
exactly the written value, for every integer value `v`. -/
theorem set_get_roundtrip (m : Mem) (buf v : Int)
    (hm : (m.load buf).magic = LIBERASURECODE_FRAG_HEADER_MAGIC) :
    (set_fragment_idx m buf v).1 = 0 ∧
    get_fragment_idx (set_fragment_idx m buf v).2 buf = v ∧
    (set_fragment_payload_size m buf v).1 = 0 ∧
    get_fragment_payload_size (set_fragment_payload_size m buf v).2 buf = v ∧
    (set_orig_data_size m buf v).1 = 0 ∧
    get_orig_data_size (set_orig_data_size m buf v).2 buf = v ∧
    (set_chksum m buf v).1 = 0 ∧
    get_chksum (set_chksum m buf v).2 buf = v := by
  refine ⟨?_, ?_, ?_, ?_, ?_, ?_, ?_, ?_⟩ <;>
    simp [set_fragment_idx, get_fragment_idx, set_fragment_payload_size,
      get_fragment_payload_size, set_orig_data_size, get_orig_data_size,
      set_chksum, get_chksum, Mem.store, hm]

/-- Witness for C4 at the concrete heap `m_valid`, buffer 100, value 7. -/
theorem set_get_roundtrip_inst :
    (set_fragment_idx m_valid 100 7).1 = 0 ∧
    get_fragment_idx (set_fragment_idx m_valid 100 7).2 100 = 7 ∧
    (set_fragment_payload_size m_valid 100 7).1 = 0 ∧
    get_fragment_payload_size (set_fragment_payload_size m_valid 100 7).2 100 = 7 ∧
    (set_orig_data_size m_valid 100 7).1 = 0 ∧
    get_orig_data_size (set_orig_data_size m_valid 100 7).2 100 = 7 ∧
    (set_chksum m_valid 100 7).1 = 0 ∧
    get_chksum (set_chksum m_valid 100 7).2 100 = 7 :=
  set_get_roundtrip m_valid 100 7 (by decide)

/-- C8: `get_data_ptr_array_from_fragments` maps each position of the
input list to NULL when the fragment pointer there is NULL and to the
fragment's data pointer (fragment pointer + header size) otherwise —
preserving order and positions exactly — and returns the number of
non-NULL entries. -/
theorem get_data_ptr_array_spec (fragments : List Int) :
    (get_data_ptr_array_from_fragments fragments).1 =
      fragments.map
        (fun p => if p = 0 then 0 else p + sizeof_fragment_header_t) ∧
    (get_data_ptr_array_from_fragments fragments).2 =
      (fragments.filter (fun p => p != 0)).length := by
  induction fragments with
  | nil => simp [get_data_ptr_array_from_fragments]
  | cons f fs ih =>
    by_cases hf : f = 0
    · simp [get_data_ptr_array_from_fragments, hf, ih.1, ih.2]
    · simp [get_data_ptr_array_from_fragments, get_data_ptr_from_fragment,
        hf, ih.1, ih.2]

/-- C2 counterexample: a buffer whose sentinel is corrupted (zero) on
which `get_fragment_size` (the spec's `get_total_size`) does NOT return
the invalid-header result -1 — it performs no sentinel check and returns
`size + header size` (here 0 + 20 = 20). -/
theorem corrupted_header_total_size_not_minus_one :
    (m_init.load 100).magic ≠ LIBERASURECODE_FRAG_HEADER_MAGIC ∧
    get_fragment_size m_init 100 ≠ -1 := by decide

/-- C2 (amended): on a non-NULL buffer whose sentinel does not match,
every sentinel-checking accessor (the idx / payload-size / orig-data-size
/ checksum getters and setters, and `validate_fragment`) fails with -1
and leaves the heap untouched, and destroying the buffer (the destroy
operation inspects the sentinel at its argument minus the header size, so
it is applied to the buffer's data pointer) fails with -1 and frees
nothing; `get_fragment_size`, however, performs no sentinel check and
still returns `size + header size`. -/
theorem corrupted_header_accessors_fail (m : Mem) (buf v : Int)
    (hbuf : buf ≠ 0)
    (hm : (m.load buf).magic ≠ LIBERASURECODE_FRAG_HEADER_MAGIC) :
    set_fragment_idx m buf v = (-1, m) ∧
    get_fragment_idx m buf = -1 ∧
    set_fragment_payload_size m buf v = (-1, m) ∧
    get_fragment_payload_size m buf = -1 ∧
    set_orig_data_size m buf v = (-1, m) ∧
    get_orig_data_size m buf = -1 ∧
    set_chksum m buf v = (-1, m) ∧
    get_chksum m buf = -1 ∧
    validate_fragment m buf = -1 ∧
    free_fragment_buffer m (get_data_ptr_from_fragment buf) = (-1, m) ∧
    get_fragment_size m buf = (m.load buf).size + sizeof_fragment_header_t := by
  have hfree :
      free_fragment_buffer m (get_data_ptr_from_fragment buf) = (-1, m) := by
    rcases eq_or_ne (buf + sizeof_fragment_header_t) 0 with h0 | h0 <;>
      simp [free_fragment_buffer, get_data_ptr_from_fragment, h0,
        add_sub_cancel_right, hm]
  refine ⟨?_, ?_, ?_, ?_, ?_, ?_, ?_, ?_, ?_, hfree, ?_⟩ <;>
    simp [set_fragment_idx, get_fragment_idx, set_fragment_payload_size,
      get_fragment_payload_size, set_orig_data_size, get_orig_data_size,
      set_chksum, get_chksum, validate_fragment, get_fragment_size,
      hbuf, hm]

/-- Witness for the amended C2 at the concrete heap `m_init` (sentinel 0
everywhere), buffer 100, value 7. -/
theorem corrupted_header_accessors_fail_inst :
    set_fragment_idx m_init 100 7 = (-1, m_init) ∧
    get_fragment_idx m_init 100 = -1 ∧
    set_fragment_payload_size m_init 100 7 = (-1, m_init) ∧
    get_fragment_payload_size m_init 100 = -1 ∧
    set_orig_data_size m_init 100 7 = (-1, m_init) ∧
    get_orig_data_size m_init 100 = -1 ∧
    set_chksum m_init 100 7 = (-1, m_init) ∧
    get_chksum m_init 100 = -1 ∧
    validate_fragment m_init 100 = -1 ∧
    free_fragment_buffer m_init (get_data_ptr_from_fragment 100) = (-1, m_init) ∧
    get_fragment_size m_init 100 =
      (m_init.load 100).size + sizeof_fragment_header_t :=
  corrupted_header_accessors_fail m_init 100 7 (by decide) (by decide)

/-- C1 counterexample: allocate a fresh fragment buffer at address 100
(header stamped at 100, so 100 is the fragment pointer the claim speaks
of) in a heap whose other views are zero, then destroy it by passing that
fragment pointer.  The sentinel check inspects address 100 - 20 = 80,
which lies below the allocation and holds no magic, so destroy returns
-1 instead of 0 and the allocation stays live: the claim fails. -/
theorem alloc_then_destroy_at_fragment_ptr_rejected :
    (alloc_fragment_buffer m_init ⟨0, 100⟩ 32).1 = 100 ∧
    (free_fragment_buffer (alloc_fragment_buffer m_init ⟨0, 100⟩ 32).2 100).1
      = -1 ∧
    (free_fragment_buffer
        (alloc_fragment_buffer m_init ⟨0, 100⟩ 32).2 100).2.live 100
      = true := by decide

/-- C1 (amended): for every fragment buffer freshly returned by
`alloc_fragment_buffer` (a successful `posix_memalign` at a positive
address), destroying it through the buffer's DATA pointer (fragment
pointer + header size) passes the sentinel check, returns 0, and releases
the full allocation (the block base is no longer live). -/
theorem alloc_then_destroy_at_data_ptr_succeeds (m : Mem)
    (r : MemalignResult) (size : Int) (hr : r.ret = 0) (hp : 0 < r.ptr) :
    (alloc_fragment_buffer m r size).1 = r.ptr ∧
    (free_fragment_buffer (alloc_fragment_buffer m r size).2
        (get_data_ptr_from_fragment (alloc_fragment_buffer m r size).1)).1
      = 0 ∧
    (free_fragment_buffer (alloc_fragment_buffer m r size).2
        (get_data_ptr_from_fragment
          (alloc_fragment_buffer m r size).1)).2.live r.ptr
      = false := by
  have hp0 : r.ptr ≠ 0 := hp.ne'
  have hp20 : r.ptr + sizeof_fragment_header_t ≠ 0 := by
    simp only [sizeof_fragment_header_t]; omega
  refine ⟨?_, ?_, ?_⟩ <;>
    simp [alloc_fragment_buffer, get_aligned_buffer16, posix_memalign_effect,
      free_fragment_buffer, get_data_ptr_from_fragment, Mem.memset_zero,
      Mem.store, Mem.free, hr, hp0, hp20, add_sub_cancel_right]

/-- Witness for the amended C1: the fresh buffer at address 100, size 32,
destroyed through its data pointer 120. -/
theorem alloc_then_destroy_at_data_ptr_succeeds_inst :
    (alloc_fragment_buffer m_init ⟨0, 100⟩ 32).1 = 100 ∧
    (free_fragment_buffer (alloc_fragment_buffer m_init ⟨0, 100⟩ 32).2
        (get_data_ptr_from_fragment
          (alloc_fragment_buffer m_init ⟨0, 100⟩ 32).1)).1 = 0 ∧
    (free_fragment_buffer (alloc_fragment_buffer m_init ⟨0, 100⟩ 32).2
        (get_data_ptr_from_fragment
          (alloc_fragment_buffer m_init ⟨0, 100⟩ 32).1)).2.live 100
      = false :=
  alloc_then_destroy_at_data_ptr_succeeds m_init ⟨0, 100⟩ 32 rfl (by decide)

/-- C10: `free_fragment_buffer` validates the sentinel at its argument
minus the header size.  For a buffer freshly created by
`alloc_fragment_buffer` it therefore succeeds — finds the stamped
sentinel and releases the allocation — exactly when passed the buffer's
data pointer (fragment pointer + header size); passed the fragment
pointer itself it looks below the allocation, and (whenever the stray
memory there does not happen to hold the sentinel) fails with -1 and
frees nothing. -/
theorem free_fragment_buffer_expects_data_ptr (m : Mem)
    (r : MemalignResult) (size : Int) (hr : r.ret = 0) (hp : 0 < r.ptr)
    (hstray : ((alloc_fragment_buffer m r size).2.load
        (r.ptr - sizeof_fragment_header_t)).magic ≠
      LIBERASURECODE_FRAG_HEADER_MAGIC) :
    (free_fragment_buffer (alloc_fragment_buffer m r size).2
        (r.ptr + sizeof_fragment_header_t)).1 = 0 ∧
    (free_fragment_buffer (alloc_fragment_buffer m r size).2
        (r.ptr + sizeof_fragment_header_t)).2.live r.ptr = false ∧
    free_fragment_buffer (alloc_fragment_buffer m r size).2 r.ptr
      = (-1, (alloc_fragment_buffer m r size).2) := by
  have hp0 : r.ptr ≠ 0 := hp.ne'
  have hp20 : r.ptr + sizeof_fragment_header_t ≠ 0 := by
    simp only [sizeof_fragment_header_t]; omega
  refine ⟨?_, ?_, ?_⟩
  · simp [alloc_fragment_buffer, get_aligned_buffer16, posix_memalign_effect,
      free_fragment_buffer, Mem.memset_zero, Mem.store, Mem.free,
      hr, hp0, hp20, add_sub_cancel_right]
  · simp [alloc_fragment_buffer, get_aligned_buffer16, posix_memalign_effect,
      free_fragment_buffer, Mem.memset_zero, Mem.store, Mem.free,
      hr, hp0, hp20, add_sub_cancel_right]
  · simp only [free_fragment_buffer, hp0, if_neg, if_false]
    simp [hstray, hp0]

/-- Witness for C10: the fresh buffer at address 100, size 32, freed at
its data pointer 120 versus at its fragment pointer 100. -/
theorem free_fragment_buffer_expects_data_ptr_inst :
    (free_fragment_buffer (alloc_fragment_buffer m_init ⟨0, 100⟩ 32).2
        ((100 : Int) + sizeof_fragment_header_t)).1 = 0 ∧
    (free_fragment_buffer (alloc_fragment_buffer m_init ⟨0, 100⟩ 32).2
        ((100 : Int) + sizeof_fragment_header_t)).2.live 100 = false ∧
    free_fragment_buffer (alloc_fragment_buffer m_init ⟨0, 100⟩ 32).2 100
      = (-1, (alloc_fragment_buffer m_init ⟨0, 100⟩ 32).2) :=
  free_fragment_buffer_expects_data_ptr m_init ⟨0, 100⟩ 32 rfl (by decide)
    (by decide)

/-- C5 (code bug): `get_aligned_buffer16` tests `posix_memalign(...) < 0`,
but `posix_memalign` reports failure with a POSITIVE error number (here
`ENOMEM = 12`), so the NULL-returning branch is unreachable: on
allocation failure the function falls through and returns the
indeterminate pointer (modelled by the garbage value 424242) — a non-NULL
result for a failed allocation, contradicting the documented contract
"pointer to start of allocated buffer or NULL on error". -/
theorem get_aligned_buffer16_failure_returns_nonnull :
    (get_aligned_buffer16 m_init ⟨12, 424242⟩ 64).1 = 424242 ∧
    ((424242 : Int) ≠ 0) := by decide

/-- Euclidean-division form of the rounding the C performs: for a
positive granularity `b`, `(a + b - 1) / b * b` is a multiple of `b`, is
at least `a`, and is less than `a + b` — i.e. it is the least multiple of
`b` that is ≥ `a`. -/
lemma int_ceil_div_least (a b : Int) (hb : 0 < b) :
    b ∣ (a + b - 1) / b * b ∧ a ≤ (a + b - 1) / b * b ∧
      (a + b - 1) / b * b < a + b := by
  have h1 : b * ((a + b - 1) / b) + (a + b - 1) % b = a + b - 1 :=
    Int.ediv_add_emod _ _
  have h2 : 0 ≤ (a + b - 1) % b := Int.emod_nonneg _ hb.ne'
  have h3 : (a + b - 1) % b < b := Int.emod_lt_of_pos _ hb
  exact ⟨Dvd.intro_left _ rfl,
    by linarith [mul_comm ((a + b - 1) / b) b],
    by linarith [mul_comm ((a + b - 1) / b) b]⟩

/-- C3 counterexample: the claim quantifies over EVERY `k`, `w`; at
`k = 0` (non-Cauchy backend, `w = 8`, `data_len = 1`) the granularity is
0, whose only multiple is 0, so no return value can be a multiple of the
granularity that is ≥ 1 — in C the computation is a division by zero
routed through floating point with an `(int)` cast of the result.  The
embedded code returns 0, which is not ≥ `data_len = 1`. -/
theorem get_aligned_data_size_zero_granularity :
    alignment_multiple
        ⟨0, 4, 8, ec_backend_id_t.EC_BACKEND_JERASURE_RS_VAND⟩ = 0 ∧
    get_aligned_data_size
        ⟨0, 4, 8, ec_backend_id_t.EC_BACKEND_JERASURE_RS_VAND⟩ 1 = 0 ∧
    ¬ ((1 : Int) ≤ get_aligned_data_size
        ⟨0, 4, 8, ec_backend_id_t.EC_BACKEND_JERASURE_RS_VAND⟩ 1) := by
  decide

/-- C3 (amended): for coding parameters with `0 ≤ k`, `0 ≤ w`, a positive
alignment granularity (`k * w * (sizeof(long) * 128)` for the Cauchy
Reed-Solomon backend, `k * (w / 8)` with truncating division otherwise)
and `0 ≤ data_len`, all within `int` range, `get_aligned_data_size`
returns the smallest multiple of the granularity that is ≥ `data_len`
(characterised quantifier-free: a multiple of the granularity, ≥
`data_len`, and < `data_len + granularity`), and `data_len = 0` yields
0. -/
theorem get_aligned_data_size_least_multiple (inst : ec_backend_t)
    (data_len : Int) (hk : 0 ≤ inst.k) (hw : 0 ≤ inst.w) (hd : 0 ≤ data_len)
    (ham : 0 < alignment_multiple inst)
    (hrange : data_len + alignment_multiple inst ≤ 2147483647) :
    alignment_multiple inst ∣ get_aligned_data_size inst data_len ∧
    data_len ≤ get_aligned_data_size inst data_len ∧
    get_aligned_data_size inst data_len < data_len + alignment_multiple inst ∧
    (data_len = 0 → get_aligned_data_size inst data_len = 0) := by
  have hval : get_aligned_data_size inst data_len =
      (data_len + alignment_multiple inst - 1) / alignment_multiple inst *
        alignment_multiple inst := rfl
  obtain ⟨hdvd, hle, hlt⟩ :=
    int_ceil_div_least data_len (alignment_multiple inst) ham
  refine ⟨?_, ?_, ?_, fun h0 => ?_⟩
  · rw [hval]; exact hdvd
  · rw [hval]; exact hle
  · rw [hval]; exact hlt
  · rw [hval, h0,
      show (0 + alignment_multiple inst - 1 : Int) =
        alignment_multiple inst - 1 by ring,
      Int.ediv_eq_zero_of_lt (by omega) (by omega), zero_mul]

/-- Witness for the amended C3 at the spec's own test vector: `k = 10`,
`m = 4`, `w = 8`, non-Cauchy backend, `data_len = 77`; the granularity is
10 and the result is the least multiple of 10 that is ≥ 77, namely 80. -/
theorem get_aligned_data_size_least_multiple_inst :
    alignment_multiple
        ⟨10, 4, 8, ec_backend_id_t.EC_BACKEND_JERASURE_RS_VAND⟩ ∣
      get_aligned_data_size
        ⟨10, 4, 8, ec_backend_id_t.EC_BACKEND_JERASURE_RS_VAND⟩ 77 ∧
    (77 : Int) ≤ get_aligned_data_size
        ⟨10, 4, 8, ec_backend_id_t.EC_BACKEND_JERASURE_RS_VAND⟩ 77 ∧
    get_aligned_data_size
        ⟨10, 4, 8, ec_backend_id_t.EC_BACKEND_JERASURE_RS_VAND⟩ 77 <
      77 + alignment_multiple
        ⟨10, 4, 8, ec_backend_id_t.EC_BACKEND_JERASURE_RS_VAND⟩ ∧
    ((77 : Int) = 0 → get_aligned_data_size
        ⟨10, 4, 8, ec_backend_id_t.EC_BACKEND_JERASURE_RS_VAND⟩ 77 = 0) :=
  get_aligned_data_size_least_multiple
    ⟨10, 4, 8, ec_backend_id_t.EC_BACKEND_JERASURE_RS_VAND⟩ 77
    (by decide) (by decide) (by decide) (by decide) (by decide)
